import Mathlib

/-!
Verification of the solar calculator's core: the hour-by-hour battery
dispatch simulation, the tariff model and the financial aggregation of
`solar_calculator.py`.  Energy quantities are embedded as rationals;
the simulation loop (source lines 103-150) becomes a step function over
an explicit state of charge, threaded through the interval list by
`simulateFrom`/`simulate`.
-/

/-- One aligned input row of the `combined` dataframe: a calendar-day
identifier (`datetime.dt.date`), the hour of day (`datetime.dt.hour`),
metered usage and solar production in kWh. -/
structure IntervalRecord where
  day : ℕ
  hour : ℕ
  usage_kwh : ℚ
  solar_kwh : ℚ
deriving DecidableEq, Repr

/-- The battery parameters collected at source lines 77-89: the
`use_battery` flag and, when enabled, capacity, charge/discharge rate
limits and round-trip efficiency (already divided by 100). -/
structure BatteryConfig where
  use_battery : Bool
  battery_capacity : ℚ
  max_charge_rate : ℚ
  max_discharge_rate : ℚ
  round_trip_eff : ℚ
deriving DecidableEq, Repr

/-- The per-interval outputs recorded at source lines 145-150:
`battery_soc`, `battery_charge`, `battery_discharge`, `self_consumed`
(direct self-consumption plus battery discharge), `exported`,
`imported`. -/
structure FlowRecord where
  battery_soc : ℚ
  battery_charge : ℚ
  battery_discharge : ℚ
  self_consumed : ℚ
  exported : ℚ
  imported : ℚ
deriving DecidableEq, Repr

/-- Source line 110: `self_consumed = min(solar, usage)`. -/
def self_consumed_direct (usage solar : ℚ) : ℚ := min solar usage

/-- Source line 111: `remaining_solar = solar - self_consumed` (value
before the charge step). -/
def remaining_solar0 (usage solar : ℚ) : ℚ := solar - self_consumed_direct usage solar

/-- Source line 112: `remaining_usage = usage - self_consumed` (value
before the discharge step). -/
def remaining_usage0 (usage solar : ℚ) : ℚ := usage - self_consumed_direct usage solar

/-- Source lines 119-124: the energy drawn from excess solar into the
battery, `min(remaining_solar, min(max_charge_rate, battery_capacity -
soc))` when `use_battery` and `remaining_solar > 0`, else `0.0`. -/
def charge_energy (cfg : BatteryConfig) (soc usage solar : ℚ) : ℚ :=
  if cfg.use_battery ∧ remaining_solar0 usage solar > 0 then
    min (remaining_solar0 usage solar)
      (min cfg.max_charge_rate (cfg.battery_capacity - soc))
  else 0

/-- Source line 123: `soc += charge_energy * round_trip_eff`. -/
def soc_after_charge (cfg : BatteryConfig) (soc usage solar : ℚ) : ℚ :=
  soc + charge_energy cfg soc usage solar * cfg.round_trip_eff

/-- Source line 125: `remaining_solar -= charge_energy`. -/
def remaining_solar1 (cfg : BatteryConfig) (soc usage solar : ℚ) : ℚ :=
  remaining_solar0 usage solar - charge_energy cfg soc usage solar

/-- Source lines 127-129: `exported = remaining_solar` when positive,
else the initial `0.0`. -/
def exported_flow (cfg : BatteryConfig) (soc usage solar : ℚ) : ℚ :=
  if remaining_solar1 cfg soc usage solar > 0 then remaining_solar1 cfg soc usage solar
  else 0

/-- Source lines 132-137: the energy discharged from the battery,
`min(remaining_usage, min(max_discharge_rate, soc))` — with `soc` the
post-charge state — when `use_battery` and `remaining_usage > 0`, else
`0.0`. -/
def discharge_energy (cfg : BatteryConfig) (soc usage solar : ℚ) : ℚ :=
  if cfg.use_battery ∧ remaining_usage0 usage solar > 0 then
    min (remaining_usage0 usage solar)
      (min cfg.max_discharge_rate (soc_after_charge cfg soc usage solar))
  else 0

/-- Source line 136: `soc -= discharge_energy`. -/
def soc_after (cfg : BatteryConfig) (soc usage solar : ℚ) : ℚ :=
  soc_after_charge cfg soc usage solar - discharge_energy cfg soc usage solar

/-- Source line 138: `remaining_usage -= discharge_energy`. -/
def remaining_usage1 (cfg : BatteryConfig) (soc usage solar : ℚ) : ℚ :=
  remaining_usage0 usage solar - discharge_energy cfg soc usage solar

/-- Source lines 141-142: `imported = remaining_usage` when positive,
else the initial `0.0`. -/
def imported_flow (cfg : BatteryConfig) (soc usage solar : ℚ) : ℚ :=
  if remaining_usage1 cfg soc usage solar > 0 then remaining_usage1 cfg soc usage solar
  else 0

/-- One iteration of the loop at source lines 103-150: from the state of
charge entering the interval, the new state of charge and the recorded
`FlowRecord` (lines 145-150). -/
def simStep (cfg : BatteryConfig) (soc usage solar : ℚ) : ℚ × FlowRecord :=
  (soc_after cfg soc usage solar,
   { battery_soc := soc_after cfg soc usage solar
     battery_charge := charge_energy cfg soc usage solar
     battery_discharge := discharge_energy cfg soc usage solar
     self_consumed := self_consumed_direct usage solar + discharge_energy cfg soc usage solar
     exported := exported_flow cfg soc usage solar
     imported := imported_flow cfg soc usage solar })

/-- The loop of source lines 103-150 run from an arbitrary entering
state of charge, emitting one `FlowRecord` per interval in order. -/
def simulateFrom (cfg : BatteryConfig) (soc : ℚ) : List IntervalRecord → List FlowRecord
  | [] => []
  | r :: rs =>
    (simStep cfg soc r.usage_kwh r.solar_kwh).2 ::
      simulateFrom cfg (simStep cfg soc r.usage_kwh r.solar_kwh).1 rs

/-- The whole simulation: source line 102 initialises `soc = 0.0`. -/
def simulate (cfg : BatteryConfig) (rows : List IntervalRecord) : List FlowRecord :=
  simulateFrom cfg 0 rows

/-- Source line 71: `self_consumed_solar_only = minimum(solar, usage)`. -/
def self_consumed_solar_only (usage solar : ℚ) : ℚ := min solar usage

/-- Source line 72: `exported_solar_only = maximum(solar - usage, 0)`. -/
def exported_solar_only (usage solar : ℚ) : ℚ := max (solar - usage) 0

/-- Source line 73: `imported_solar_only = maximum(usage - solar, 0)`. -/
def imported_solar_only (usage solar : ℚ) : ℚ := max (usage - solar) 0

/-- Source line 154: `supply_charge_per_day = 1.1322`. -/
def supply_charge_per_day : ℚ := 11322 / 10000

/-- Source line 155: `energy_rate = 0.315823`. -/
def energy_rate : ℚ := 315823 / 1000000

/-- Source line 156: `peak_start = 15`. -/
def peak_start : ℕ := 15

/-- Source line 157: `peak_end = 20`. -/
def peak_end : ℕ := 20

/-- Source line 160: `is_peak = hour.between(peak_start, peak_end,
inclusive both)`. -/
def is_peak (hour : ℕ) : Bool := decide (peak_start ≤ hour ∧ hour ≤ peak_end)

/-- Source line 161: `feedin_rate = 0.10 where is_peak else 0.02`. -/
def feedin_rate (hour : ℕ) : ℚ := if is_peak hour then 10 / 100 else 2 / 100

/-- The tariff model assembled from source lines 155-161: a pure map
from an interval to its (flat) energy price and hour-dependent feed-in
price. -/
def rate_for (r : IntervalRecord) : ℚ × ℚ := (energy_rate, feedin_rate r.hour)

/-- Source line 164: `total_days = datetime.dt.date.nunique()`, the
number of distinct calendar days among the timestamps. -/
def total_days (rows : List IntervalRecord) : ℕ :=
  ((rows.map fun r => r.day).dedup).length

/-- Source line 165: `supply_charge_total = supply_charge_per_day *
total_days`. -/
def supply_charge_total (rows : List IntervalRecord) : ℚ :=
  supply_charge_per_day * (total_days rows : ℚ)

/-- Source line 183: `total_usage = usage_kwh.sum()`. -/
def total_usage (rows : List IntervalRecord) : ℚ :=
  (rows.map fun r => r.usage_kwh).sum

/-- Source line 182: `total_imported = imported.sum()`. -/
def total_imported (flows : List FlowRecord) : ℚ :=
  (flows.map fun f => f.imported).sum

/-- Source line 187: `export_earnings = (exported * feedin_rate).sum()`,
the row-wise product of the exported column and the feed-in rate column
summed over the aligned rows. -/
def export_earnings (rows : List IntervalRecord) (flows : List FlowRecord) : ℚ :=
  ((flows.zip rows).map fun p => p.1.exported * feedin_rate p.2.hour).sum

/-- Source line 188: `cost_without_solar = total_usage * energy_rate +
supply_charge_total`. -/
def cost_without_solar (rows : List IntervalRecord) : ℚ :=
  total_usage rows * energy_rate + supply_charge_total rows

/-- Source line 189: `cost_with_solar = total_imported * energy_rate -
export_earnings + supply_charge_total`. -/
def cost_with_solar (rows : List IntervalRecord) (flows : List FlowRecord) : ℚ :=
  total_imported flows * energy_rate - export_earnings rows flows + supply_charge_total rows

/-- Source line 190: `total_savings = cost_without_solar -
cost_with_solar`. -/
def total_savings (rows : List IntervalRecord) (flows : List FlowRecord) : ℚ :=
  cost_without_solar rows - cost_with_solar rows flows

/-- Source line 194: `payback_years = system_cost / total_savings if
total_savings > 0 else inf`; the infinite float is embedded as `⊤` of
`WithTop ℚ`. -/
def payback_years (system_cost total_savings : ℚ) : WithTop ℚ :=
  if total_savings > 0 then ((system_cost / total_savings : ℚ) : WithTop ℚ) else ⊤

example : simStep ⟨true, 10, 10, 10, 9 / 10⟩ 0 0 10 = (9, ⟨9, 10, 0, 0, 0, 0⟩) := by
  norm_num [simStep, soc_after, soc_after_charge, charge_energy, discharge_energy,
    exported_flow, imported_flow, remaining_solar0, remaining_solar1,
    remaining_usage0, remaining_usage1, self_consumed_direct]

example : simulate ⟨false, 0, 0, 0, 1⟩ [⟨0, 0, 5, 3⟩] = [⟨0, 0, 0, 3, 0, 2⟩] := by
  norm_num [simulate, simulateFrom, simStep, soc_after, soc_after_charge, charge_energy,
    discharge_energy, exported_flow, imported_flow, remaining_solar0, remaining_solar1,
    remaining_usage0, remaining_usage1, self_consumed_direct]

lemma remaining_solar0_nonneg (usage solar : ℚ) : 0 ≤ remaining_solar0 usage solar := by
  have h := min_le_left solar usage
  unfold remaining_solar0 self_consumed_direct
  linarith

lemma remaining_usage0_nonneg (usage solar : ℚ) : 0 ≤ remaining_usage0 usage solar := by
  have h := min_le_right solar usage
  unfold remaining_usage0 self_consumed_direct
  linarith

lemma charge_energy_le (cfg : BatteryConfig) (soc usage solar : ℚ) :
    charge_energy cfg soc usage solar ≤ remaining_solar0 usage solar := by
  unfold charge_energy
  split_ifs with h
  · exact min_le_left _ _
  · exact remaining_solar0_nonneg usage solar

lemma discharge_energy_le (cfg : BatteryConfig) (soc usage solar : ℚ) :
    discharge_energy cfg soc usage solar ≤ remaining_usage0 usage solar := by
  unfold discharge_energy
  split_ifs with h
  · exact min_le_left _ _
  · exact remaining_usage0_nonneg usage solar

lemma remaining_solar1_nonneg (cfg : BatteryConfig) (soc usage solar : ℚ) :
    0 ≤ remaining_solar1 cfg soc usage solar := by
  have h := charge_energy_le cfg soc usage solar
  unfold remaining_solar1
  linarith

lemma remaining_usage1_nonneg (cfg : BatteryConfig) (soc usage solar : ℚ) :
    0 ≤ remaining_usage1 cfg soc usage solar := by
  have h := discharge_energy_le cfg soc usage solar
  unfold remaining_usage1
  linarith

lemma exported_flow_eq (cfg : BatteryConfig) (soc usage solar : ℚ) :
    exported_flow cfg soc usage solar = remaining_solar1 cfg soc usage solar := by
  have h := remaining_solar1_nonneg cfg soc usage solar
  unfold exported_flow
  split_ifs with h1
  · rfl
  · linarith

lemma imported_flow_eq (cfg : BatteryConfig) (soc usage solar : ℚ) :
    imported_flow cfg soc usage solar = remaining_usage1 cfg soc usage solar := by
  have h := remaining_usage1_nonneg cfg soc usage solar
  unfold imported_flow
  split_ifs with h1
  · rfl
  · linarith

lemma step_solar_conservation (cfg : BatteryConfig) (soc usage solar : ℚ) :
    self_consumed_direct usage solar + charge_energy cfg soc usage solar +
      exported_flow cfg soc usage solar = solar := by
  rw [exported_flow_eq]
  unfold remaining_solar1 remaining_solar0
  ring

lemma step_usage_conservation (cfg : BatteryConfig) (soc usage solar : ℚ) :
    self_consumed_direct usage solar + discharge_energy cfg soc usage solar +
      imported_flow cfg soc usage solar = usage := by
  rw [imported_flow_eq]
  unfold remaining_usage1 remaining_usage0
  ring

lemma soc_after_eq (cfg : BatteryConfig) (soc usage solar : ℚ) :
    soc_after cfg soc usage solar
      = soc + charge_energy cfg soc usage solar * cfg.round_trip_eff
          - discharge_energy cfg soc usage solar := rfl

lemma soc_after_charge_bounds (cfg : BatteryConfig) (soc usage solar : ℚ)
    (hrate : 0 ≤ cfg.max_charge_rate) (heff0 : 0 ≤ cfg.round_trip_eff)
    (heff1 : cfg.round_trip_eff ≤ 1) (h0 : 0 ≤ soc) (h1 : soc ≤ cfg.battery_capacity) :
    soc ≤ soc_after_charge cfg soc usage solar ∧
      soc_after_charge cfg soc usage solar ≤ cfg.battery_capacity := by
  unfold soc_after_charge charge_energy
  split_ifs with h
  · set ce := min (remaining_solar0 usage solar)
      (min cfg.max_charge_rate (cfg.battery_capacity - soc)) with hce
    have hce0 : 0 ≤ ce := by
      apply le_min (le_of_lt h.2)
      exact le_min hrate (by linarith)
    have hceCap : ce ≤ cfg.battery_capacity - soc :=
      le_trans (min_le_right _ _) (min_le_right _ _)
    have hmul0 : 0 ≤ ce * cfg.round_trip_eff := mul_nonneg hce0 heff0
    have hmul1 : ce * cfg.round_trip_eff ≤ ce := mul_le_of_le_one_right hce0 heff1
    constructor <;> linarith
  · constructor <;> linarith [mul_nonneg (le_refl (0 : ℚ)) heff0]

lemma soc_after_bounds (cfg : BatteryConfig) (soc usage solar : ℚ)
    (hcharge : 0 ≤ cfg.max_charge_rate) (hdis : 0 ≤ cfg.max_discharge_rate)
    (heff0 : 0 ≤ cfg.round_trip_eff) (heff1 : cfg.round_trip_eff ≤ 1)
    (h0 : 0 ≤ soc) (h1 : soc ≤ cfg.battery_capacity) :
    0 ≤ soc_after cfg soc usage solar ∧
      soc_after cfg soc usage solar ≤ cfg.battery_capacity := by
  obtain ⟨hc0, hc1⟩ := soc_after_charge_bounds cfg soc usage solar hcharge heff0 heff1 h0 h1
  unfold soc_after discharge_energy
  split_ifs with h
  · set de := min (remaining_usage0 usage solar)
      (min cfg.max_discharge_rate (soc_after_charge cfg soc usage solar)) with hde
    have hde0 : 0 ≤ de := by
      apply le_min (le_of_lt h.2)
      exact le_min hdis (by linarith)
    have hdeSoc : de ≤ soc_after_charge cfg soc usage solar :=
      le_trans (min_le_right _ _) (min_le_right _ _)
    constructor <;> linarith
  · constructor <;> linarith

lemma mem_zip_simulateFrom (cfg : BatteryConfig) :
    ∀ (rows : List IntervalRecord) (soc : ℚ) (p : IntervalRecord × FlowRecord),
      p ∈ rows.zip (simulateFrom cfg soc rows) →
      ∃ s0, p.2 = (simStep cfg s0 p.1.usage_kwh p.1.solar_kwh).2 := by
  intro rows
  induction rows with
  | nil => intro soc p hp; simp [simulateFrom] at hp
  | cons r rs ih =>
    intro soc p hp
    simp only [simulateFrom, List.zip_cons_cons, List.mem_cons] at hp
    rcases hp with h | h
    · exact ⟨soc, by rw [h]⟩
    · exact ih _ p h

lemma step_exclusive (cfg : BatteryConfig) (soc usage solar : ℚ) :
    exported_flow cfg soc usage solar * imported_flow cfg soc usage solar = 0 := by
  rw [exported_flow_eq, imported_flow_eq]
  rcases le_total solar usage with h | h
  · have hrs : remaining_solar0 usage solar = 0 := by
      unfold remaining_solar0 self_consumed_direct
      rw [min_eq_left h]; ring
    have hce : charge_energy cfg soc usage solar = 0 := by
      unfold charge_energy
      split_ifs with hb
      · rw [hrs] at hb; exact absurd hb.2 (lt_irrefl 0)
      · rfl
    unfold remaining_solar1
    rw [hrs, hce]
    simp
  · have hru : remaining_usage0 usage solar = 0 := by
      unfold remaining_usage0 self_consumed_direct
      rw [min_eq_right h]; ring
    have hde : discharge_energy cfg soc usage solar = 0 := by
      unfold discharge_energy
      split_ifs with hb
      · rw [hru] at hb; exact absurd hb.2 (lt_irrefl 0)
      · rfl
    unfold remaining_usage1
    rw [hru, hde]
    simp

lemma simulateFrom_soc_mem (cfg : BatteryConfig)
    (hcharge : 0 ≤ cfg.max_charge_rate) (hdis : 0 ≤ cfg.max_discharge_rate)
    (heff0 : 0 ≤ cfg.round_trip_eff) (heff1 : cfg.round_trip_eff ≤ 1) :
    ∀ (rows : List IntervalRecord) (soc : ℚ), 0 ≤ soc → soc ≤ cfg.battery_capacity →
      ∀ f ∈ simulateFrom cfg soc rows,
        0 ≤ f.battery_soc ∧ f.battery_soc ≤ cfg.battery_capacity := by
  intro rows
  induction rows with
  | nil => intro soc h0 h1 f hf; simp [simulateFrom] at hf
  | cons r rs ih =>
    intro soc h0 h1 f hf
    obtain ⟨hA, hB⟩ := soc_after_bounds cfg soc r.usage_kwh r.solar_kwh hcharge hdis heff0 heff1 h0 h1
    simp only [simulateFrom, List.mem_cons] at hf
    rcases hf with h | h
    · rw [h]; exact ⟨hA, hB⟩
    · exact ih (simStep cfg soc r.usage_kwh r.solar_kwh).1 hA hB f h

/-- Claim C1: for every interval processed by the dispatch simulation with
non-negative `usage_kwh` and `solar_kwh`, the emitted flow record conserves
energy: `min(solar, usage) + battery_charge + exported = solar_kwh`,
`min(solar, usage) + battery_discharge + imported = usage_kwh`, and the
reported `self_consumed` equals `min(solar, usage) + battery_discharge`. -/
theorem conservation_per_interval (cfg : BatteryConfig) (rows : List IntervalRecord)
    (hnn : ∀ r ∈ rows, 0 ≤ r.usage_kwh ∧ 0 ≤ r.solar_kwh) :
    ∀ p ∈ rows.zip (simulate cfg rows),
      min p.1.solar_kwh p.1.usage_kwh + p.2.battery_charge + p.2.exported = p.1.solar_kwh ∧
      min p.1.solar_kwh p.1.usage_kwh + p.2.battery_discharge + p.2.imported = p.1.usage_kwh ∧
      p.2.self_consumed = min p.1.solar_kwh p.1.usage_kwh + p.2.battery_discharge := by
  intro p hp
  obtain ⟨s0, hp2⟩ := mem_zip_simulateFrom cfg rows 0 p hp
  have h1 := step_solar_conservation cfg s0 p.1.usage_kwh p.1.solar_kwh
  have h2 := step_usage_conservation cfg s0 p.1.usage_kwh p.1.solar_kwh
  unfold self_consumed_direct at h1 h2
  rw [hp2]
  simp only [simStep]
  exact ⟨h1, h2, rfl⟩

/-- Witness for C1: a two-interval run with a 5 kWh battery; both
conservation identities and the reported self-consumption identity hold on
each emitted record. -/
theorem conservation_per_interval_witness :
    (∀ r ∈ [(⟨0, 0, 1, 6⟩ : IntervalRecord), ⟨0, 1, 4, 0⟩], 0 ≤ r.usage_kwh ∧ 0 ≤ r.solar_kwh) ∧
    (∀ p ∈ ([(⟨0, 0, 1, 6⟩ : IntervalRecord), ⟨0, 1, 4, 0⟩].zip
        (simulate ⟨true, 5, 5, 5, 1⟩ [⟨0, 0, 1, 6⟩, ⟨0, 1, 4, 0⟩])),
      min p.1.solar_kwh p.1.usage_kwh + p.2.battery_charge + p.2.exported = p.1.solar_kwh ∧
      min p.1.solar_kwh p.1.usage_kwh + p.2.battery_discharge + p.2.imported = p.1.usage_kwh ∧
      p.2.self_consumed = min p.1.solar_kwh p.1.usage_kwh + p.2.battery_discharge) := by
  refine ⟨by norm_num, conservation_per_interval ⟨true, 5, 5, 5, 1⟩ _ (by norm_num)⟩

/-- Claim C2: with non-negative capacity and rates, efficiency in `(0, 1]`,
non-negative inputs and initial state of charge `0`, every emitted record's
state of charge lies in `[0, capacity]`. -/
theorem soc_bounds (cfg : BatteryConfig) (rows : List IntervalRecord)
    (hcap : 0 ≤ cfg.battery_capacity)
    (hcharge : 0 ≤ cfg.max_charge_rate) (hdis : 0 ≤ cfg.max_discharge_rate)
    (heff0 : 0 < cfg.round_trip_eff) (heff1 : cfg.round_trip_eff ≤ 1)
    (hnn : ∀ r ∈ rows, 0 ≤ r.usage_kwh ∧ 0 ≤ r.solar_kwh) :
    ∀ f ∈ simulate cfg rows,
      0 ≤ f.battery_soc ∧ f.battery_soc ≤ cfg.battery_capacity := by
  exact simulateFrom_soc_mem cfg hcharge hdis (le_of_lt heff0) heff1 rows 0 le_rfl hcap

/-- Witness for C2: a 5 kWh battery over a charge-then-discharge pair of
intervals keeps the state of charge within `[0, 5]`. -/
theorem soc_bounds_witness :
    ((0 : ℚ) ≤ 5 ∧ (0 : ℚ) ≤ 5 ∧ (0 : ℚ) ≤ 5 ∧ (0 : ℚ) < 9 / 10 ∧ (9 / 10 : ℚ) ≤ 1) ∧
    (∀ f ∈ simulate ⟨true, 5, 5, 5, 9 / 10⟩ [⟨0, 0, 1, 6⟩, ⟨0, 1, 4, 0⟩],
      0 ≤ f.battery_soc ∧ f.battery_soc ≤ (5 : ℚ)) := by
  refine ⟨by norm_num, soc_bounds ⟨true, 5, 5, 5, 9 / 10⟩ _ (by norm_num) (by norm_num)
    (by norm_num) (by norm_num) (by norm_num) (by norm_num)⟩

/-- Claim C9: for every interval with non-negative inputs, at most one of
`exported` and `imported` is nonzero in the emitted flow record. -/
theorem export_import_exclusive (cfg : BatteryConfig) (rows : List IntervalRecord)
    (hnn : ∀ r ∈ rows, 0 ≤ r.usage_kwh ∧ 0 ≤ r.solar_kwh) :
    ∀ p ∈ rows.zip (simulate cfg rows), p.2.exported * p.2.imported = 0 := by
  intro p hp
  obtain ⟨s0, hp2⟩ := mem_zip_simulateFrom cfg rows 0 p hp
  rw [hp2]
  simp only [simStep]
  exact step_exclusive cfg s0 p.1.usage_kwh p.1.solar_kwh

/-- Witness for C9: in a run where the first interval exports and the
second imports, each record has a zero export-import product. -/
theorem export_import_exclusive_witness :
    (∀ r ∈ [(⟨0, 0, 1, 6⟩ : IntervalRecord), ⟨0, 1, 9, 0⟩], 0 ≤ r.usage_kwh ∧ 0 ≤ r.solar_kwh) ∧
    (∀ p ∈ ([(⟨0, 0, 1, 6⟩ : IntervalRecord), ⟨0, 1, 9, 0⟩].zip
        (simulate ⟨true, 2, 2, 2, 1⟩ [⟨0, 0, 1, 6⟩, ⟨0, 1, 9, 0⟩])),
      p.2.exported * p.2.imported = 0) := by
  refine ⟨by norm_num, export_import_exclusive ⟨true, 2, 2, 2, 1⟩ _ (by norm_num)⟩

lemma sub_min_max (a b : ℚ) : a - min a b = max (a - b) 0 := by
  rcases le_total a b with h | h
  · rw [min_eq_left h, max_eq_right (by linarith : a - b ≤ 0)]; ring
  · rw [min_eq_right h, max_eq_left (by linarith : (0 : ℚ) ≤ a - b)]

lemma charge_energy_disabled (cfg : BatteryConfig) (h : cfg.use_battery = false)
    (soc usage solar : ℚ) : charge_energy cfg soc usage solar = 0 := by
  unfold charge_energy
  simp [h]

lemma discharge_energy_disabled (cfg : BatteryConfig) (h : cfg.use_battery = false)
    (soc usage solar : ℚ) : discharge_energy cfg soc usage solar = 0 := by
  unfold discharge_energy
  simp [h]

lemma simStep_disabled (cfg : BatteryConfig) (h : cfg.use_battery = false)
    (soc usage solar : ℚ) :
    simStep cfg soc usage solar =
      (soc, ⟨soc, 0, 0, self_consumed_solar_only usage solar,
        exported_solar_only usage solar, imported_solar_only usage solar⟩) := by
  have hce := charge_energy_disabled cfg h soc usage solar
  have hde := discharge_energy_disabled cfg h soc usage solar
  have hsoc : soc_after cfg soc usage solar = soc := by
    unfold soc_after soc_after_charge
    rw [hce, hde]; ring
  have hexp : exported_flow cfg soc usage solar = exported_solar_only usage solar := by
    rw [exported_flow_eq]
    unfold remaining_solar1 remaining_solar0 self_consumed_direct exported_solar_only
    rw [hce, sub_zero, sub_min_max]
  have himp : imported_flow cfg soc usage solar = imported_solar_only usage solar := by
    rw [imported_flow_eq]
    unfold remaining_usage1 remaining_usage0 self_consumed_direct imported_solar_only
    rw [hde, sub_zero, min_comm, sub_min_max]
  unfold simStep
  rw [hsoc, hce, hde, hexp, himp]
  simp [self_consumed_direct, self_consumed_solar_only]

lemma simulateFrom_disabled (cfg : BatteryConfig) (h : cfg.use_battery = false) :
    ∀ (rows : List IntervalRecord) (soc : ℚ),
      simulateFrom cfg soc rows = rows.map fun r =>
        ⟨soc, 0, 0, self_consumed_solar_only r.usage_kwh r.solar_kwh,
          exported_solar_only r.usage_kwh r.solar_kwh,
          imported_solar_only r.usage_kwh r.solar_kwh⟩ := by
  intro rows
  induction rows with
  | nil => intro soc; rfl
  | cons r rs ih =>
    intro soc
    simp only [simulateFrom, List.map_cons, simStep_disabled cfg h soc r.usage_kwh r.solar_kwh]
    exact congrArg _ (ih soc)

/-- Claim C4: with the battery disabled the simulation charges and
discharges nothing, keeps the state of charge at `0`, and each record is
numerically identical to the direct solar-only computation of source lines
71-73 (`min(solar, usage)`, `max(solar - usage, 0)`, `max(usage - solar,
0)`). -/
theorem disabled_battery_equiv (cfg : BatteryConfig) (h : cfg.use_battery = false)
    (rows : List IntervalRecord) :
    simulate cfg rows = rows.map fun r =>
      ⟨0, 0, 0, self_consumed_solar_only r.usage_kwh r.solar_kwh,
        exported_solar_only r.usage_kwh r.solar_kwh,
        imported_solar_only r.usage_kwh r.solar_kwh⟩ := by
  unfold simulate
  exact simulateFrom_disabled cfg h rows 0

/-- Witness for C4: the disabled run over a deficit interval and a surplus
interval equals the mapped solar-only records. -/
theorem disabled_battery_equiv_witness :
    (⟨false, 0, 0, 0, 1⟩ : BatteryConfig).use_battery = false ∧
    simulate ⟨false, 0, 0, 0, 1⟩ [⟨0, 0, 5, 3⟩, ⟨0, 1, 2, 5⟩]
      = [(⟨0, 0, 5, 3⟩ : IntervalRecord), ⟨0, 1, 2, 5⟩].map fun r =>
          ⟨0, 0, 0, self_consumed_solar_only r.usage_kwh r.solar_kwh,
            exported_solar_only r.usage_kwh r.solar_kwh,
            imported_solar_only r.usage_kwh r.solar_kwh⟩ :=
  ⟨rfl, disabled_battery_equiv ⟨false, 0, 0, 0, 1⟩ rfl [⟨0, 0, 5, 3⟩, ⟨0, 1, 2, 5⟩]⟩

/-- Claim C7: round-trip efficiency is applied exactly once, at charge
time: across any interval the state of charge moves by
`battery_charge * round_trip_eff - battery_discharge` (stored energy is
scaled by the efficiency, discharge is not), while the solar ledger
`min(solar, usage) + battery_charge + exported = solar` accounts the full
`battery_charge` as diverted; concretely, with capacity 10, charge rate 10,
efficiency 0.9, state 0, usage 0, solar 10, the result is charge 10, state
of charge 9, exported 0. -/
theorem efficiency_at_charge_only (cfg : BatteryConfig) (soc usage solar : ℚ) :
    (simStep cfg soc usage solar).1
        = soc + (simStep cfg soc usage solar).2.battery_charge * cfg.round_trip_eff
            - (simStep cfg soc usage solar).2.battery_discharge ∧
    min solar usage + (simStep cfg soc usage solar).2.battery_charge
        + (simStep cfg soc usage solar).2.exported = solar ∧
    simStep ⟨true, 10, 10, 10, 9 / 10⟩ 0 0 10 = (9, ⟨9, 10, 0, 0, 0, 0⟩) := by
  refine ⟨soc_after_eq cfg soc usage solar, ?_, ?_⟩
  · have h1 := step_solar_conservation cfg soc usage solar
    unfold self_consumed_direct at h1
    exact h1
  · norm_num [simStep, soc_after, soc_after_charge, charge_energy, discharge_energy,
      exported_flow, imported_flow, remaining_solar0, remaining_solar1,
      remaining_usage0, remaining_usage1, self_consumed_direct]

lemma simulateFrom_length (cfg : BatteryConfig) :
    ∀ (rows : List IntervalRecord) (soc : ℚ),
      (simulateFrom cfg soc rows).length = rows.length := by
  intro rows
  induction rows with
  | nil => intro soc; rfl
  | cons r rs ih => intro soc; simp [simulateFrom, ih]

/-- Claim C3 (amended): the simulator performs no configuration validation
and never fails: every configuration — including ones with negative
capacity, negative rates, or efficiency outside `(0, 1]` — is accepted and
the run emits exactly one flow record per input interval. -/
theorem no_validation_total (cfg : BatteryConfig) (rows : List IntervalRecord) :
    (simulate cfg rows).length = rows.length :=
  simulateFrom_length cfg rows 0

/-- Counterexample to C3 as stated: `battery_capacity = -1` violates the
claimed bounds, yet the run does not fail before producing a flow record —
it produces one (with a negative charge and state of charge, since nothing
is validated or clamped). -/
theorem no_validation_counterexample :
    (⟨true, -1, 1, 1, 1⟩ : BatteryConfig).battery_capacity < 0 ∧
    simulate ⟨true, -1, 1, 1, 1⟩ [⟨0, 0, 0, 10⟩] = [⟨-1, -1, 0, 0, 11, 0⟩] := by
  constructor
  · norm_num
  · norm_num [simulate, simulateFrom, simStep, soc_after, soc_after_charge, charge_energy,
      discharge_energy, exported_flow, imported_flow, remaining_solar0, remaining_solar1,
      remaining_usage0, remaining_usage1, self_consumed_direct]

lemma simulateFrom_soc_at (cfg : BatteryConfig) (d : FlowRecord) :
    ∀ (rows : List IntervalRecord) (soc : ℚ) (k : ℕ), k < rows.length →
      ((simulateFrom cfg soc rows).getD k d).battery_soc
        = soc + cfg.round_trip_eff *
              (((simulateFrom cfg soc rows).take (k + 1)).map fun f => f.battery_charge).sum
            - (((simulateFrom cfg soc rows).take (k + 1)).map fun f => f.battery_discharge).sum := by
  intro rows
  induction rows with
  | nil => intro soc k hk; simp at hk
  | cons r rs ih =>
    intro soc k hk
    cases k with
    | zero =>
      simp only [simulateFrom, List.getD_cons_zero, List.take_succ_cons, List.take_zero,
        List.map_cons, List.map_nil, List.sum_cons, List.sum_nil, simStep]
      rw [soc_after_eq]
      ring
    | succ k =>
      have hk' : k < rs.length := by simpa using hk
      simp only [simulateFrom, List.getD_cons_succ, List.take_succ_cons,
        List.map_cons, List.sum_cons]
      rw [ih (simStep cfg soc r.usage_kwh r.solar_kwh).1 k hk']
      simp only [simStep]
      rw [soc_after_eq]
      ring

lemma discharge_sum_le (cfg : BatteryConfig)
    (hcharge : 0 ≤ cfg.max_charge_rate) (hdis : 0 ≤ cfg.max_discharge_rate)
    (heff0 : 0 ≤ cfg.round_trip_eff) (heff1 : cfg.round_trip_eff ≤ 1) :
    ∀ (rows : List IntervalRecord) (soc : ℚ), 0 ≤ soc → soc ≤ cfg.battery_capacity →
      ((simulateFrom cfg soc rows).map fun f => f.battery_discharge).sum
        ≤ cfg.round_trip_eff *
            ((simulateFrom cfg soc rows).map fun f => f.battery_charge).sum + soc := by
  intro rows
  induction rows with
  | nil =>
    intro soc h0 h1
    simp only [simulateFrom, List.map_nil, List.sum_nil]
    linarith
  | cons r rs ih =>
    intro soc h0 h1
    obtain ⟨hA, hB⟩ :=
      soc_after_bounds cfg soc r.usage_kwh r.solar_kwh hcharge hdis heff0 heff1 h0 h1
    have hih := ih (simStep cfg soc r.usage_kwh r.solar_kwh).1 hA hB
    have hsoc : (simStep cfg soc r.usage_kwh r.solar_kwh).1
        = soc + charge_energy cfg soc r.usage_kwh r.solar_kwh * cfg.round_trip_eff
            - discharge_energy cfg soc r.usage_kwh r.solar_kwh := soc_after_eq cfg soc _ _
    simp only [simulateFrom, List.map_cons, List.sum_cons]
    have hbc : (simStep cfg soc r.usage_kwh r.solar_kwh).2.battery_charge
        = charge_energy cfg soc r.usage_kwh r.solar_kwh := rfl
    have hbd : (simStep cfg soc r.usage_kwh r.solar_kwh).2.battery_discharge
        = discharge_energy cfg soc r.usage_kwh r.solar_kwh := rfl
    rw [hbc, hbd]
    linarith [hih, hsoc]

/-- Claim C10 (amended): starting from state of charge `0`, after any
prefix of the interval sequence the recorded state of charge equals the
round-trip efficiency times the cumulative `battery_charge` minus the
cumulative `battery_discharge` over that prefix; and — given additionally a
non-negative capacity and non-negative rate limits (the claim's original
hypotheses of efficiency in `(0, 1]` and non-negative inputs are not
enough) — cumulative discharge never exceeds the efficiency times
cumulative charge. -/
theorem soc_ledger (cfg : BatteryConfig) (rows : List IntervalRecord) :
    (∀ k, k < (simulate cfg rows).length →
      ((simulate cfg rows).getD k ⟨0, 0, 0, 0, 0, 0⟩).battery_soc
        = cfg.round_trip_eff *
              (((simulate cfg rows).take (k + 1)).map fun f => f.battery_charge).sum
            - (((simulate cfg rows).take (k + 1)).map fun f => f.battery_discharge).sum) ∧
    (0 ≤ cfg.battery_capacity → 0 ≤ cfg.max_charge_rate → 0 ≤ cfg.max_discharge_rate →
      0 < cfg.round_trip_eff → cfg.round_trip_eff ≤ 1 →
      (∀ r ∈ rows, 0 ≤ r.usage_kwh ∧ 0 ≤ r.solar_kwh) →
      ((simulate cfg rows).map fun f => f.battery_discharge).sum
        ≤ cfg.round_trip_eff * ((simulate cfg rows).map fun f => f.battery_charge).sum) := by
  constructor
  · intro k hk
    have hk' : k < rows.length := by rwa [simulate, simulateFrom_length] at hk
    have h := simulateFrom_soc_at cfg ⟨0, 0, 0, 0, 0, 0⟩ rows 0 k hk'
    rw [simulate]
    rw [h]
    ring
  · intro hcap hcharge hdis heff0 heff1 _
    have h := discharge_sum_le cfg hcharge hdis (le_of_lt heff0) heff1 rows 0 le_rfl hcap
    rw [simulate]
    linarith

/-- Witness for C10 (amended): in a charge-then-discharge run with a 5 kWh
lossless battery, the second record's state of charge equals cumulative
charge minus cumulative discharge, and total discharge (4) stays below
total charge (5). -/
theorem soc_ledger_witness :
    ((1 : ℕ) < (simulate ⟨true, 5, 5, 5, 1⟩ [⟨0, 0, 1, 6⟩, ⟨0, 1, 4, 0⟩]).length ∧
      ((simulate ⟨true, 5, 5, 5, 1⟩ [⟨0, 0, 1, 6⟩, ⟨0, 1, 4, 0⟩]).getD 1
          ⟨0, 0, 0, 0, 0, 0⟩).battery_soc
        = (1 : ℚ) *
              (((simulate ⟨true, 5, 5, 5, 1⟩ [⟨0, 0, 1, 6⟩, ⟨0, 1, 4, 0⟩]).take 2).map
                fun f => f.battery_charge).sum
            - (((simulate ⟨true, 5, 5, 5, 1⟩ [⟨0, 0, 1, 6⟩, ⟨0, 1, 4, 0⟩]).take 2).map
                fun f => f.battery_discharge).sum) ∧
    ((simulate ⟨true, 5, 5, 5, 1⟩ [⟨0, 0, 1, 6⟩, ⟨0, 1, 4, 0⟩]).map
        fun f => f.battery_discharge).sum
      ≤ (1 : ℚ) * ((simulate ⟨true, 5, 5, 5, 1⟩ [⟨0, 0, 1, 6⟩, ⟨0, 1, 4, 0⟩]).map
        fun f => f.battery_charge).sum := by
  have hlen : (1 : ℕ) < (simulate ⟨true, 5, 5, 5, 1⟩ [⟨0, 0, 1, 6⟩, ⟨0, 1, 4, 0⟩]).length := by
    rw [simulate, simulateFrom_length]
    norm_num
  refine ⟨⟨hlen, (soc_ledger ⟨true, 5, 5, 5, 1⟩ [⟨0, 0, 1, 6⟩, ⟨0, 1, 4, 0⟩]).1 1 hlen⟩, ?_⟩
  exact (soc_ledger ⟨true, 5, 5, 5, 1⟩ [⟨0, 0, 1, 6⟩, ⟨0, 1, 4, 0⟩]).2 (by norm_num)
    (by norm_num) (by norm_num) (by norm_num) (by norm_num) (by norm_num)

/-- Counterexample to C10 as stated: with efficiency `1 ∈ (0, 1]` and
non-negative inputs but a negative capacity (`-5`), the recorded charge is
negative and cumulative discharge (`0`) exceeds efficiency times cumulative
charge (`-5`). -/
theorem discharge_bound_counterexample :
    (0 < (⟨true, -5, 10, 10, 1⟩ : BatteryConfig).round_trip_eff ∧
      (⟨true, -5, 10, 10, 1⟩ : BatteryConfig).round_trip_eff ≤ 1) ∧
    (∀ r ∈ [(⟨0, 0, 0, 10⟩ : IntervalRecord)], 0 ≤ r.usage_kwh ∧ 0 ≤ r.solar_kwh) ∧
    ¬ ((simulate ⟨true, -5, 10, 10, 1⟩ [⟨0, 0, 0, 10⟩]).map
          fun f => f.battery_discharge).sum
        ≤ (⟨true, -5, 10, 10, 1⟩ : BatteryConfig).round_trip_eff *
            ((simulate ⟨true, -5, 10, 10, 1⟩ [⟨0, 0, 0, 10⟩]).map
              fun f => f.battery_charge).sum := by
  refine ⟨⟨by norm_num, by norm_num⟩, by norm_num, ?_⟩
  norm_num [simulate, simulateFrom, simStep, soc_after, soc_after_charge, charge_energy,
    discharge_energy, exported_flow, imported_flow, remaining_solar0, remaining_solar1,
    remaining_usage0, remaining_usage1, self_consumed_direct]

lemma export_earnings_range :
    ∀ (rows : List IntervalRecord) (flows : List FlowRecord), flows.length = rows.length →
      export_earnings rows flows
        = ∑ i ∈ Finset.range rows.length,
            (flows.getD i ⟨0, 0, 0, 0, 0, 0⟩).exported *
              feedin_rate (rows.getD i ⟨0, 0, 0, 0⟩).hour := by
  intro rows
  induction rows with
  | nil =>
    intro flows h
    simp only [List.length_nil, Finset.range_zero, Finset.sum_empty]
    unfold export_earnings
    rw [List.zip_nil_right]
    rfl
  | cons r rs ih =>
    intro flows h
    cases flows with
    | nil => simp at h
    | cons f fs =>
      have h' : fs.length = rs.length := by simpa using h
      unfold export_earnings at *
      simp only [List.zip_cons_cons, List.map_cons, List.sum_cons, List.length_cons]
      rw [Finset.sum_range_succ']
      simp only [List.getD_cons_succ, List.getD_cons_zero]
      rw [← ih fs h']
      ring

/-- Claim C5: the financial aggregation sums exported energy against each
interval's feed-in price, charges supply per distinct calendar day among
the timestamps, and combines the totals exactly as
`cost_without_solar = Σ usage × energy_rate + supply_charge_total`,
`cost_with_solar = Σ imported × energy_rate − export_earnings +
supply_charge_total`, `total_savings = cost_without_solar −
cost_with_solar`. -/
theorem financial_aggregation (rows : List IntervalRecord) (flows : List FlowRecord)
    (h : flows.length = rows.length) :
    export_earnings rows flows
        = ∑ i ∈ Finset.range rows.length,
            (flows.getD i ⟨0, 0, 0, 0, 0, 0⟩).exported *
              feedin_rate (rows.getD i ⟨0, 0, 0, 0⟩).hour ∧
    supply_charge_total rows
        = supply_charge_per_day * ((rows.map fun r => r.day).toFinset.card : ℚ) ∧
    cost_without_solar rows
        = (rows.map fun r => r.usage_kwh).sum * energy_rate + supply_charge_total rows ∧
    cost_with_solar rows flows
        = (flows.map fun f => f.imported).sum * energy_rate - export_earnings rows flows
            + supply_charge_total rows ∧
    total_savings rows flows = cost_without_solar rows - cost_with_solar rows flows := by
  refine ⟨export_earnings_range rows flows h, ?_, rfl, rfl, rfl⟩
  unfold supply_charge_total total_days
  rw [List.card_toFinset]

/-- Witness for C5: one peak-hour interval with 3 kWh exported; all five
aggregation identities hold. -/
theorem financial_aggregation_witness :
    ([(⟨0, 0, 0, 0, 3, 1⟩ : FlowRecord)].length = [(⟨0, 16, 2, 0⟩ : IntervalRecord)].length) ∧
    (export_earnings [⟨0, 16, 2, 0⟩] [⟨0, 0, 0, 0, 3, 1⟩]
        = ∑ i ∈ Finset.range 1,
            (([(⟨0, 0, 0, 0, 3, 1⟩ : FlowRecord)]).getD i ⟨0, 0, 0, 0, 0, 0⟩).exported *
              feedin_rate (([(⟨0, 16, 2, 0⟩ : IntervalRecord)]).getD i ⟨0, 0, 0, 0⟩).hour ∧
      supply_charge_total [⟨0, 16, 2, 0⟩]
        = supply_charge_per_day *
            ((([(⟨0, 16, 2, 0⟩ : IntervalRecord)]).map fun r => r.day).toFinset.card : ℚ) ∧
      cost_without_solar [⟨0, 16, 2, 0⟩]
        = (([(⟨0, 16, 2, 0⟩ : IntervalRecord)]).map fun r => r.usage_kwh).sum * energy_rate
            + supply_charge_total [⟨0, 16, 2, 0⟩] ∧
      cost_with_solar [⟨0, 16, 2, 0⟩] [⟨0, 0, 0, 0, 3, 1⟩]
        = (([(⟨0, 0, 0, 0, 3, 1⟩ : FlowRecord)]).map fun f => f.imported).sum * energy_rate
            - export_earnings [⟨0, 16, 2, 0⟩] [⟨0, 0, 0, 0, 3, 1⟩]
            + supply_charge_total [⟨0, 16, 2, 0⟩] ∧
      total_savings [⟨0, 16, 2, 0⟩] [⟨0, 0, 0, 0, 3, 1⟩]
        = cost_without_solar [⟨0, 16, 2, 0⟩]
            - cost_with_solar [⟨0, 16, 2, 0⟩] [⟨0, 0, 0, 0, 3, 1⟩]) :=
  ⟨rfl, financial_aggregation [⟨0, 16, 2, 0⟩] [⟨0, 0, 0, 0, 3, 1⟩] rfl⟩

/-- Claim C6: the payback period equals `system_cost / total_savings` when
the battery-scenario savings are positive, and otherwise is the infinite
sentinel `⊤`, which is distinct from every finite rational value. -/
theorem payback_sentinel (system_cost : ℚ) (cfg : BatteryConfig) (rows : List IntervalRecord) :
    (0 < total_savings rows (simulate cfg rows) →
      payback_years system_cost (total_savings rows (simulate cfg rows))
        = ((system_cost / total_savings rows (simulate cfg rows) : ℚ) : WithTop ℚ)) ∧
    (total_savings rows (simulate cfg rows) ≤ 0 →
      payback_years system_cost (total_savings rows (simulate cfg rows)) = ⊤ ∧
      ∀ q : ℚ, payback_years system_cost (total_savings rows (simulate cfg rows))
        ≠ (q : WithTop ℚ)) := by
  constructor
  · intro h
    unfold payback_years
    rw [if_pos h]
  · intro h
    unfold payback_years
    rw [if_neg (not_lt.mpr h)]
    exact ⟨rfl, fun q => WithTop.top_ne_coe⟩

/-- Witness for C6: a self-consumption-only run has positive savings and a
finite payback, while the empty run has zero savings and the infinite
sentinel. -/
theorem payback_sentinel_witness :
    (0 < total_savings [⟨0, 12, 5, 5⟩] (simulate ⟨false, 0, 0, 0, 1⟩ [⟨0, 12, 5, 5⟩]) ∧
      payback_years 8000 (total_savings [⟨0, 12, 5, 5⟩]
          (simulate ⟨false, 0, 0, 0, 1⟩ [⟨0, 12, 5, 5⟩]))
        = ((8000 / total_savings [⟨0, 12, 5, 5⟩]
            (simulate ⟨false, 0, 0, 0, 1⟩ [⟨0, 12, 5, 5⟩]) : ℚ) : WithTop ℚ)) ∧
    (total_savings [] (simulate ⟨false, 0, 0, 0, 1⟩ []) ≤ 0 ∧
      payback_years 8000 (total_savings [] (simulate ⟨false, 0, 0, 0, 1⟩ [])) = ⊤) := by
  have hpos : 0 < total_savings [⟨0, 12, 5, 5⟩] (simulate ⟨false, 0, 0, 0, 1⟩ [⟨0, 12, 5, 5⟩]) := by
    norm_num [total_savings, cost_without_solar, cost_with_solar, total_usage, total_imported,
      export_earnings, supply_charge_total, total_days, supply_charge_per_day, energy_rate,
      feedin_rate, is_peak, peak_start, peak_end, simulate, simulateFrom, simStep,
      soc_after, soc_after_charge, charge_energy, discharge_energy, exported_flow,
      imported_flow, remaining_solar0, remaining_solar1, remaining_usage0, remaining_usage1,
      self_consumed_direct]
  have hzero : total_savings [] (simulate ⟨false, 0, 0, 0, 1⟩ []) ≤ 0 := by
    norm_num [total_savings, cost_without_solar, cost_with_solar, total_usage, total_imported,
      export_earnings, supply_charge_total, total_days, supply_charge_per_day, energy_rate,
      simulate, simulateFrom]
  exact ⟨⟨hpos, (payback_sentinel 8000 ⟨false, 0, 0, 0, 1⟩ [⟨0, 12, 5, 5⟩]).1 hpos⟩,
    ⟨hzero, ((payback_sentinel 8000 ⟨false, 0, 0, 0, 1⟩ []).2 hzero).1⟩⟩

lemma feedin_rate_eq (h : ℕ) :
    feedin_rate h = if 15 ≤ h ∧ h ≤ 20 then 10 / 100 else 2 / 100 := by
  unfold feedin_rate is_peak peak_start peak_end
  by_cases hc : 15 ≤ h ∧ h ≤ 20 <;> simp [hc]

/-- Claim C8: the tariff is a pure function of the timestamp: the energy
price is the same flat constant for every interval, two intervals with the
same hour get identical rates, and the feed-in price is the peak price
`0.10` exactly when the hour lies in the inclusive window 15-20 and the
off-peak price `0.02` otherwise. -/
theorem tariff_rate (r r' : IntervalRecord) :
    (rate_for r).1 = (rate_for r').1 ∧
    (r.hour = r'.hour → rate_for r = rate_for r') ∧
    ((rate_for r).2 = 10 / 100 ↔ (15 ≤ r.hour ∧ r.hour ≤ 20)) ∧
    (¬ (15 ≤ r.hour ∧ r.hour ≤ 20) → (rate_for r).2 = 2 / 100) := by
  refine ⟨rfl, ?_, ?_, ?_⟩
  · intro h
    simp [rate_for, h]
  · have : (rate_for r).2 = feedin_rate r.hour := rfl
    rw [this, feedin_rate_eq]
    split_ifs with hc
    · exact ⟨fun _ => hc, fun _ => rfl⟩
    · constructor
      · intro habs; norm_num at habs
      · intro hx; exact absurd hx hc
  · intro h
    have : (rate_for r).2 = feedin_rate r.hour := rfl
    rw [this, feedin_rate_eq, if_neg h]

/-- Witness for C8: hour 16 gets the peak feed-in price, hour 3 the
off-peak price. -/
theorem tariff_rate_witness :
    ((15 ≤ (16 : ℕ) ∧ (16 : ℕ) ≤ 20) ∧ (rate_for ⟨0, 16, 0, 0⟩).2 = 10 / 100) ∧
    (¬ (15 ≤ (3 : ℕ) ∧ (3 : ℕ) ≤ 20) ∧ (rate_for ⟨0, 3, 0, 0⟩).2 = 2 / 100) :=
  ⟨⟨by norm_num, (tariff_rate ⟨0, 16, 0, 0⟩ ⟨0, 16, 0, 0⟩).2.2.1.mpr (by norm_num)⟩,
   ⟨by norm_num, (tariff_rate ⟨0, 3, 0, 0⟩ ⟨0, 3, 0, 0⟩).2.2.2 (by norm_num)⟩⟩
